import Mathlib

/-!
Shallow embedding of `src/ESP_code/ESP_code.ino` (ESP8266 swarm node).

Conventions of the embedding:
* C `int` is modeled as `Int`; C integer division (truncation toward zero)
  is `Int.tdiv`.
* Arduino `String` values are modeled as Lean `String`s; the Arduino
  `startsWith` / `endsWith` / `substring` operations are modeled on the
  underlying character list (`String.data`).
* `millis()` is modeled as an explicit `now : Nat` argument threaded through
  one loop iteration; `delay(ms)` becomes an explicit `ms` component of the
  result so that hold periods are visible in the model.
* The `int readings[10]` array is a `List Int` of length 10.  A write
  `readings[i] = v` is modeled by `setReading`, which returns `none` when the
  index is outside `[0, 10)` — the C code would perform an out-of-bounds
  write (undefined behavior) there, so `none` marks the error branch.
* `sscanf(data, "%d,%d", &a, &b)` assigns only the successfully converted
  prefix of conversions and leaves the remaining variables untouched; since
  `receivedSwarmID` and `receivedReading` are declared uninitialized in
  `loop`, their values on a failed conversion are indeterminate.  The model
  makes this explicit: `scanf_dd` returns which of the two conversions
  succeeded, and the loop step takes `junk1 junk2 : Int` parameters standing
  for the indeterminate contents of the uninitialized variables.
-/

namespace ESPCode

/-- Delimiters for packet structure (source lines 30-33). -/
def ESP_startBit : String := "~~~"

/-- End delimiter for ESP messages. -/
def ESP_endBit : String := "---"

/-- Start delimiter for RPi messages. -/
def RPi_startBit : String := "+++"

/-- End delimiter for RPi messages. -/
def RPi_endBit : String := "***"

/-- Broadcast if no message is received within 200 ms (source line 18). -/
def silentTime : Nat := 200

/-- The reset hold duration: `delay(3000)` at source line 197. -/
def resetHold : Nat := 3000

/-- LED flashing interval parameters (source lines 36-39). -/
def Y_threshold : Int := 24

/-- Max interval for flashing based on light intensity. -/
def Y_interval : Int := 2010

/-- Maximum threshold for light sensor reading. -/
def Z_threshold : Int := 1024

/-- Minimum interval for flashing based on light intensity. -/
def Z_interval : Int := 10

/-- `getSlopeIntercept` (source lines 49-62): two-point slope and intercept
with C integer division (`Int.tdiv` truncates toward zero, as C does). -/
def getSlopeIntercept (x1 y1 x2 y2 : Int) : Int × Int :=
  let a := (y2 - y1).tdiv (x2 - x1)
  let b := y1 - a * x1
  (a, b)

/-- The slope computed once in `setup` (source line 142). -/
def slope : Int :=
  (getSlopeIntercept Y_threshold Y_interval Z_threshold Z_interval).1

/-- The intercept computed once in `setup` (source line 142). -/
def intercept : Int :=
  (getSlopeIntercept Y_threshold Y_interval Z_threshold Z_interval).2

/-- The LED flash interval computed in `ledIndicatorFlash` / `ledMasterFlash`
(source lines 74 and 93): `slope * analog_value + intercept`, with no
clamping. -/
def linearMap (analog_value : Int) : Int :=
  slope * analog_value + intercept

/-- The initial contents of `int readings[10] = {-1};` (source line 27).
C aggregate initialization sets the first element to the given initializer
and zero-initializes the remaining elements. -/
def initReadings : List Int :=
  [-1, 0, 0, 0, 0, 0, 0, 0, 0, 0]

/-- Write `readings[sid] = v` into the 10-element array.  Returns `none`
when `sid` is outside `[0, 10)`: there the C code writes out of bounds
(undefined behavior), which the model surfaces as the error branch. -/
def setReading (rs : List Int) (sid v : Int) : Option (List Int) :=
  if 0 ≤ sid ∧ sid < 10 then some (rs.set sid.toNat v) else none

/-- Master determination loop (source lines 215-221): start from
`isMaster = true` and clear it when some other index holds a non-sentinel
reading strictly greater than the fresh local reading. -/
def computeIsMaster (swarmID : Nat) (analogValue : Int) (rs : List Int) : Bool :=
  !((List.range 10).any fun i =>
      i != swarmID && decide (0 ≤ rs.getD i (-1)) && decide (analogValue < rs.getD i (-1)))

/-- Munch a maximal run of decimal digits, accumulating their value; fails if
the first character is not a digit (the `%d` conversion of `sscanf` fails
when no digit is available). -/
def grabDigits (acc : Nat) : List Char → Nat × List Char
  | [] => (acc, [])
  | c :: cs =>
    if c.isDigit then grabDigits (acc * 10 + (c.toNat - '0'.toNat)) cs
    else (acc, c :: cs)

/-- One `%d` conversion of `sscanf`: skip leading whitespace, read an
optional sign, then at least one digit. -/
def scanIntFrom : List Char → Option (Int × List Char)
  | [] => none
  | c :: cs =>
    if c.isWhitespace then scanIntFrom cs
    else if c = '-' then
      match cs with
      | d :: ds =>
        if d.isDigit then
          let (n, rest) := grabDigits (d.toNat - '0'.toNat) ds
          some (-(Int.ofNat n), rest)
        else none
      | [] => none
    else if c = '+' then
      match cs with
      | d :: ds =>
        if d.isDigit then
          let (n, rest) := grabDigits (d.toNat - '0'.toNat) ds
          some (Int.ofNat n, rest)
        else none
      | [] => none
    else if c.isDigit then
      let (n, rest) := grabDigits (c.toNat - '0'.toNat) cs
      some (Int.ofNat n, rest)
    else none

/-- Model of `sscanf(data, "%d,%d", &a, &b)` (source line 182): the pair of
conversions that actually succeeded.  `sscanf` stops at the first failing
conversion or literal mismatch and leaves the remaining output variables
unassigned. -/
def scanf_dd (cs : List Char) : Option Int × Option Int :=
  match scanIntFrom cs with
  | none => (none, none)
  | some (a, rest) =>
    match rest with
    | ',' :: rest2 =>
      match scanIntFrom rest2 with
      | none => (some a, none)
      | some (b, _) => (some a, some b)
    | _ => (some a, none)

/-- Arduino `String.startsWith`, on the character lists. -/
def startsWithStr (s pat : String) : Bool :=
  pat.data.isPrefixOf s.data

/-- Arduino `String.endsWith`, on the character lists. -/
def endsWithStr (s pat : String) : Bool :=
  pat.data.isSuffixOf s.data

/-- Arduino `packetStr.substring(startBit.length(), packetStr.length() -
endBit.length())` — the payload between the two delimiters. -/
def payloadBetween (s startBit endBit : String) : List Char :=
  (s.data.drop startBit.data.length).take
    (s.data.length - startBit.data.length - endBit.data.length)

/-- Whether a packet matches the ESP-to-ESP frame shape (source line 178). -/
def isPeerFrame (pkt : String) : Bool :=
  startsWithStr pkt ESP_startBit && endsWithStr pkt ESP_endBit

/-- Whether a packet matches the RPi frame shape (source line 190). -/
def isRPiFrame (pkt : String) : Bool :=
  startsWithStr pkt RPi_startBit && endsWithStr pkt RPi_endBit

/-- The mutable node state touched by `loop` (source lines 17-46): the
readings table, the silence timer, the master flag, the role string, the last
sensor sample, and the two LED output pin levels (`true` = `HIGH`). -/
structure NodeState where
  readings : List Int
  lastReceivedTime : Nat
  isMaster : Bool
  role : String
  analogValue : Int
  ledIndicatorPin : Bool
  ledMasterPin : Bool
  deriving Repr, DecidableEq

/-- Node state right after `setup` (source lines 17-27 and 112-143): empty
table per C initialization, timer at 0, master flag set, both LED pins driven
`HIGH`. -/
def initState : NodeState :=
  { readings := initReadings
    lastReceivedTime := 0
    isMaster := true
    role := "Master"
    analogValue := 0
    ledIndicatorPin := true
    ledMasterPin := true }

/-- The packet-processing part of `loop` (source lines 167-200): the
ESP-to-ESP branch, then the RPi reset branch.  `now` is `millis()` at the
receive instant; `junk1 junk2` stand for the indeterminate values of the
uninitialized `receivedSwarmID` / `receivedReading` when the corresponding
`sscanf` conversion fails.  Result: the updated state plus the `delay`
performed by this phase (3000 in the reset branch, else 0); `none` marks the
out-of-bounds table write (undefined behavior in the C code). -/
def processPacket (s : NodeState) (now : Nat) (pkt : String) (junk1 junk2 : Int) :
    Option (NodeState × Nat) :=
  let afterESP : Option NodeState :=
    if isPeerFrame pkt then
      let data := payloadBetween pkt ESP_startBit ESP_endBit
      let scanned := scanf_dd data
      let receivedSwarmID := scanned.1.getD junk1
      let receivedReading := scanned.2.getD junk2
      match setReading s.readings receivedSwarmID receivedReading with
      | none => none
      | some rs => some { s with readings := rs, lastReceivedTime := now }
    else some s
  match afterESP with
  | none => none
  | some s1 =>
    if isRPiFrame pkt then
      if payloadBetween pkt RPi_startBit RPi_endBit = "RESET_REQUESTED".data then
        some ({ s1 with ledIndicatorPin := true, ledMasterPin := true, isMaster := true },
              resetHold)
      else some (s1, 0)
    else some (s1, 0)

/-- The character for a single decimal digit. -/
def digitChar : Nat → Char
  | 0 => '0' | 1 => '1' | 2 => '2' | 3 => '3' | 4 => '4'
  | 5 => '5' | 6 => '6' | 7 => '7' | 8 => '8' | _ => '9'

/-- Decimal rendering of a nonnegative value, fueled so that it reduces in
the kernel; models Arduino `String(int)` for the values the sketch prints. -/
def natToCharsAux : Nat → Nat → List Char
  | 0, _ => []
  | fuel + 1, n =>
    if n < 10 then [digitChar n]
    else natToCharsAux fuel (n / 10) ++ [digitChar (n % 10)]

/-- Decimal digit list of a natural number. -/
def natToChars (n : Nat) : List Char :=
  natToCharsAux (n + 1) n

/-- Arduino `String(int)`: decimal rendering, with a leading minus sign for
negative values. -/
def intToStr (n : Int) : String :=
  match n with
  | Int.ofNat m => ⟨natToChars m⟩
  | Int.negSucc m => ⟨'-' :: natToChars (m + 1)⟩

/-- The broadcast message built at source line 207:
`ESP_startBit + String(swarmID) + "," + String(analogValue) + ESP_endBit`. -/
def encodePeer (swarmID reading : Int) : String :=
  ESP_startBit ++ intToStr swarmID ++ "," ++ intToStr reading ++ ESP_endBit

/-- The receiver's peer-frame parse (source lines 178-182): check the
delimiter pair, extract the payload, and run the `sscanf` model on it.
`none` means the frame does not match the peer delimiters. -/
def peerParse (pkt : String) : Option (Option Int × Option Int) :=
  if isPeerFrame pkt then some (scanf_dd (payloadBetween pkt ESP_startBit ESP_endBit))
  else none

/-- A readings table in which exactly one peer entry is known: every slot
holds the sentinel `-1` except slot `peer`, which holds `v`.  This is the
table of a node that has received exactly one peer broadcast — the
"full visibility of a single peer, no third competing value" situation of
the spec's two-node scenarios. -/
def soloTable (peer : Nat) (v : Int) : List Int :=
  (List.replicate 10 (-1)).set peer v

/-- The value the receiving loop uses as array index for a peer frame: the
first `sscanf` conversion when it succeeded, else the indeterminate content
`j1` of the uninitialized variable. -/
def sidOf (pkt : String) (j1 : Int) : Int :=
  ((scanf_dd (payloadBetween pkt ESP_startBit ESP_endBit)).1).getD j1

/-- One iteration of `loop` (source lines 146-237) restricted to the state
transition: receive phase (at most one packet, at time `now`), then the
silence check and broadcast/election phase.  Returns the new state, whether
this iteration broadcast (and hence recomputed the master flag), and the
delay executed during the iteration; `none` is the out-of-bounds write.
`millis()` at the silence check (line 203) is `now + delay`, since the reset
branch sleeps before that check runs. -/
def loopStep (swarmID : Nat) (s : NodeState) (now : Nat) (pkt : Option String)
    (junk1 junk2 : Int) (sample : Int) : Option (NodeState × Bool × Nat) :=
  let received : Option (NodeState × Nat) :=
    match pkt with
    | none => some (s, 0)
    | some p => processPacket s now p junk1 junk2
  match received with
  | none => none
  | some (s1, d) =>
    let tcheck := now + d
    if tcheck - s1.lastReceivedTime > silentTime then
      let s2 := { s1 with
        analogValue := sample
        lastReceivedTime := tcheck
        isMaster := computeIsMaster swarmID sample s1.readings }
      let s3 := { s2 with role := if s2.isMaster then "Master" else "Slave" }
      some (s3, true, d)
    else
      some (s1, false, d)

end ESPCode

/-!
Helper lemmas shared by the claim theorems.
-/

namespace ESPCode

/-- The master-determination loop computes `true` exactly when no other index
holds a non-sentinel entry strictly above the local reading. -/
lemma computeIsMaster_iff (swarmID : Nat) (analogValue : Int) (rs : List Int) :
    computeIsMaster swarmID analogValue rs = true ↔
      ∀ i, i < 10 → i ≠ swarmID → 0 ≤ rs.getD i (-1) → rs.getD i (-1) ≤ analogValue := by
  simp only [computeIsMaster, Bool.not_eq_true', List.any_eq_false, List.mem_range,
    Bool.and_eq_true, bne_iff_ne, decide_eq_true_eq, not_and, not_lt, and_imp]

/-- Entry lookup in a single-peer table. -/
lemma soloTable_getD (peer : Nat) (v : Int) (i : Nat) (hp : peer < 10) :
    (soloTable peer v).getD i (-1) = if i = peer then v else -1 := by
  rcases eq_or_ne i peer with h | h
  · subst h
    simp [soloTable, List.getD_eq_getElem?_getD, List.getElem?_set, hp]
  · simp only [soloTable, List.getD_eq_getElem?_getD, List.getElem?_set, Ne.symm h, if_false,
      List.getElem?_replicate, if_neg h]
    by_cases hi : i < 10 <;> simp [hi]

/-- A character list beginning with the ESP start delimiter cannot begin with
the RPi start delimiter. -/
lemma tilde_not_plus (l : List Char) (h : ("~~~".data).isPrefixOf l = true) :
    ("+++".data).isPrefixOf l = false := by
  cases l with
  | nil => simp [List.isPrefixOf] at h
  | cons c cs =>
    simp only [show "~~~".data = ['~', '~', '~'] from rfl, List.isPrefixOf, Bool.and_eq_true,
      beq_iff_eq] at h
    simp [show "+++".data = ['+', '+', '+'] from rfl, List.isPrefixOf, ← h.1]

/-- A packet matching the ESP-to-ESP frame shape never also matches the RPi
frame shape, so the two `loop` branches are mutually exclusive. -/
lemma not_isRPiFrame_of_peer (pkt : String) (h : isPeerFrame pkt = true) :
    isRPiFrame pkt = false := by
  simp only [isPeerFrame, startsWithStr, ESP_startBit, ESP_endBit, Bool.and_eq_true] at h
  simp only [isRPiFrame, startsWithStr, RPi_startBit, RPi_endBit,
    tilde_not_plus pkt.data h.1, Bool.false_and]

/-- Claim C1: per broadcast cycle the node computes `isMaster = true` iff no
other index holds a known (non-sentinel, i.e. nonnegative) entry strictly
greater than the fresh local reading; ties and sentinel entries leave the
local node master.  In particular, in the two-node full-visibility situation
the strictly higher reader computes `true` and the lower reader `false`, and
on an exact tie both compute `true`. -/
theorem claim1_election_rule :
    (∀ (swarmID : Nat) (analogValue : Int) (rs : List Int),
        computeIsMaster swarmID analogValue rs = true ↔
          ∀ i, i < 10 → i ≠ swarmID → 0 ≤ rs.getD i (-1) → rs.getD i (-1) ≤ analogValue)
    ∧ (∀ (a b : Nat) (r1 r2 : Int), a < 10 → b < 10 → a ≠ b → 0 ≤ r2 → r2 < r1 →
        computeIsMaster a r1 (soloTable b r2) = true ∧
        computeIsMaster b r2 (soloTable a r1) = false)
    ∧ (∀ (a b : Nat) (r : Int), a < 10 → b < 10 → a ≠ b →
        computeIsMaster a r (soloTable b r) = true ∧
        computeIsMaster b r (soloTable a r) = true) := by
  refine ⟨computeIsMaster_iff, ?_, ?_⟩
  · intro a b r1 r2 ha hb hab h2 h12
    constructor
    · rw [computeIsMaster_iff]
      intro i hi hia hge
      rw [soloTable_getD b r2 i hb] at hge ⊢
      by_cases hib : i = b
      · simp only [hib, if_true] at hge ⊢
        omega
      · simp only [hib, if_false] at hge
        omega
    · rw [Bool.eq_false_iff, Ne, computeIsMaster_iff]
      intro hall
      have h := hall a ha (fun hc => hab hc) ?_
      · rw [soloTable_getD a r1 a ha, if_pos rfl] at h
        omega
      · rw [soloTable_getD a r1 a ha, if_pos rfl]
        omega
  · intro a b r ha hb hab
    constructor
    · rw [computeIsMaster_iff]
      intro i hi hia hge
      rw [soloTable_getD b r i hb] at hge ⊢
      by_cases hib : i = b
      · simp only [hib, if_true]
        exact le_rfl
      · simp only [hib, if_false] at hge
        omega
    · rw [computeIsMaster_iff]
      intro i hi hia hge
      rw [soloTable_getD a r i ha] at hge ⊢
      by_cases hib : i = a
      · simp only [hib, if_true]
        exact le_rfl
      · simp only [hib, if_false] at hge
        omega

/-- Witness for claim C1 at concrete readings 5 versus 3. -/
theorem claim1_election_rule_witness :
    computeIsMaster 1 5 (soloTable 2 3) = true ∧ computeIsMaster 2 3 (soloTable 1 5) = false :=
  claim1_election_rule.2.1 1 2 5 3 (by decide) (by decide) (by decide) (by decide) (by decide)

/-- Claim C2, evaluated at the failing input: the frame `"~~~oops---"`
matches the peer delimiters but its payload fails both `sscanf` conversions;
the loop still executes `readings[receivedSwarmID] = receivedReading` with
both variables holding indeterminate values (modeled `junk` parameters).
For indeterminate value 5 the ReadingTable is mutated; for indeterminate
value 12 the write is out of bounds (the model's `none`).  Only a frame
matching neither delimiter pair (here `"hello"`) is dropped with no state
change, as the claim asserts for malformed payloads as well. -/
theorem claim2_unchecked_scan :
    scanf_dd "oops".data = (none, none)
    ∧ processPacket initState 1000 "~~~oops---" 5 7 =
        some ({ initState with readings := initReadings.set 5 7, lastReceivedTime := 1000 }, 0)
    ∧ initReadings.set 5 7 ≠ initReadings
    ∧ processPacket initState 1000 "~~~oops---" 12 7 = none
    ∧ processPacket initState 1000 "hello" 5 7 = some (initState, 0) := by decide

/-- Claim C3, counterexample: an iteration that processes a peer frame
(the ReadingTable changes) does not broadcast in that same iteration — the
receive branch sets `lastReceivedTime` to the current time, so the silence
condition `millis() - lastReceivedTime > 200` is false right afterwards. -/
theorem claim3_cex :
    loopStep 1 initState 1000 (some "~~~2,300---") 0 0 7 =
      some ({ initState with readings := initReadings.set 2 300, lastReceivedTime := 1000 },
        false, 0)
    ∧ initReadings.set 2 300 ≠ initReadings := by decide

/-- Claim C3 as amended: the sample-broadcast-elect cycle is triggered only
by elapsed silence.  First part: in every iteration that processes a peer
frame the node does NOT sample, broadcast or recompute `isMaster` (the
broadcast flag of `loopStep` is `false`), because the receive branch resets
the silence timer to the receive instant.  Second part: with no inbound
packet, the iteration broadcasts exactly when more than `silentTime` = 200ms
have elapsed since the last receive-or-broadcast timestamp. -/
theorem claim3_amended_thm :
    (∀ (swarmID : Nat) (s : NodeState) (now : Nat) (pkt : String) (j1 j2 sample : Int)
        (out : NodeState × Bool × Nat),
        isPeerFrame pkt = true →
        loopStep swarmID s now (some pkt) j1 j2 sample = some out →
        out.2.1 = false)
    ∧ (∀ (swarmID : Nat) (s : NodeState) (now : Nat) (j1 j2 sample : Int)
        (out : NodeState × Bool × Nat),
        loopStep swarmID s now none j1 j2 sample = some out →
        out.2.1 = decide (now - s.lastReceivedTime > silentTime)) := by
  constructor
  · intro swarmID s now pkt j1 j2 sample out hpeer h
    have hr : isRPiFrame pkt = false := not_isRPiFrame_of_peer pkt hpeer
    unfold loopStep processPacket at h
    simp only [hpeer, hr, if_true, Bool.false_eq_true, if_false] at h
    cases hs : setReading s.readings
        (((scanf_dd (payloadBetween pkt ESP_startBit ESP_endBit)).1).getD j1)
        (((scanf_dd (payloadBetween pkt ESP_startBit ESP_endBit)).2).getD j2) with
    | none => rw [hs] at h; simp at h
    | some rs =>
      rw [hs] at h
      simp only [silentTime, Nat.add_zero, Nat.sub_self, show ¬((0 : Nat) > 200) by decide,
        if_false, Option.some.injEq] at h
      rw [← h]
  · intro swarmID s now j1 j2 sample out h
    unfold loopStep at h
    simp only [Nat.add_zero] at h
    split at h <;> simp only [Option.some.injEq] at h <;> rw [← h] <;> simp_all

/-- Witness for claim C3 as amended, at the concrete iteration of the
counterexample. -/
theorem claim3_amended_thm_witness :
    (({ initState with readings := initReadings.set 2 300, lastReceivedTime := 1000 },
        false, 0) : NodeState × Bool × Nat).2.1 = false :=
  claim3_amended_thm.1 1 initState 1000 "~~~2,300---" 0 0 7
    ({ initState with readings := initReadings.set 2 300, lastReceivedTime := 1000 }, false, 0)
    (by decide) (by decide)

/-- Claim C4: a node in any state that receives the reset frame sets
`isMaster = true` (also driving both LED pins `HIGH`) and holds — suspending
all activity, in particular new broadcasts — for exactly `resetHold` =
3000ms before the loop resumes. -/
theorem claim4_reset :
    ∀ (s : NodeState) (now : Nat) (j1 j2 : Int),
      processPacket s now "+++RESET_REQUESTED***" j1 j2 =
        some ({ s with ledIndicatorPin := true, ledMasterPin := true, isMaster := true }, 3000)
      ∧ resetHold = 3000 := by
  intro s now j1 j2
  have h1 : isPeerFrame "+++RESET_REQUESTED***" = false := by decide
  have h2 : isRPiFrame "+++RESET_REQUESTED***" = true := by decide
  have h3 : payloadBetween "+++RESET_REQUESTED***" RPi_startBit RPi_endBit
      = "RESET_REQUESTED".data := by decide
  refine ⟨?_, rfl⟩
  unfold processPacket
  simp only [h1, h2, h3, Bool.false_eq_true, if_false, if_true, resetHold]

/-- Claim C5: processing a reset frame leaves every ReadingTable entry (and
the timer, role and sample fields) unchanged; only the master flag and the
LED outputs are touched. -/
theorem claim5_reset_table :
    ∀ (s : NodeState) (now : Nat) (j1 j2 : Int),
      ∃ s2, processPacket s now "+++RESET_REQUESTED***" j1 j2 = some (s2, resetHold)
        ∧ s2.readings = s.readings ∧ s2.lastReceivedTime = s.lastReceivedTime
        ∧ s2.role = s.role ∧ s2.analogValue = s.analogValue ∧ s2.isMaster = true := by
  intro s now j1 j2
  have h1 : isPeerFrame "+++RESET_REQUESTED***" = false := by decide
  have h2 : isRPiFrame "+++RESET_REQUESTED***" = true := by decide
  have h3 : payloadBetween "+++RESET_REQUESTED***" RPi_startBit RPi_endBit
      = "RESET_REQUESTED".data := by decide
  refine ⟨{ s with ledIndicatorPin := true, ledMasterPin := true, isMaster := true },
    ?_, rfl, rfl, rfl, rfl, rfl⟩
  unfold processPacket
  simp only [h1, h2, h3, Bool.false_eq_true, if_false, if_true]

/-- Claim C6: with the default calibration constants and the C integer
slope/intercept computation, the flash-interval map hits both calibration
points exactly. -/
theorem claim6_calibration :
    linearMap 24 = 2010 ∧ linearMap 1024 = 10 := by decide

/-- Claim C7, counterexample: the interval computation is not clamped — at
reading 1030 it is negative. -/
theorem claim7_cex :
    linearMap 1030 = -2 ∧ ¬(0 ≤ linearMap 1030) := by decide

/-- Claim C7 as amended: `linearMap` performs no clamping and is negative
for readings above 1029, but it is non-negative for every reading in the
sensor range `[0, 1024]`. -/
theorem claim7_amended_thm (reading : Int) (h0 : 0 ≤ reading) (h1 : reading ≤ 1024) :
    0 ≤ linearMap reading := by
  have hs : slope = -2 := by decide
  have hi : intercept = 2058 := by decide
  unfold linearMap
  rw [hs, hi]
  omega

/-- Witness for claim C7 as amended, at reading 512. -/
theorem claim7_amended_thm_witness : 0 ≤ linearMap 512 :=
  claim7_amended_thm 512 (by decide) (by decide)

/-- Claim C8: encoding `(swarmID = 3, reading = 512)` as a peer frame gives
`"~~~3,512---"`, and the receiver's peer-frame parse of that frame succeeds
with exactly swarmID 3 and reading 512. -/
theorem claim8_roundtrip :
    encodePeer 3 512 = "~~~3,512---"
    ∧ peerParse (encodePeer 3 512) = some (some 3, some 512) := by decide

/-- Claim C9, evaluated at the failing input: `int readings[10] = {-1}` sets
only `readings[0]` to the sentinel; C aggregate initialization
zero-initializes the other nine entries, so `readings[1]` starts as the
known (non-sentinel) reading 0, contradicting the claim and the source's own
comment that the whole array is initialized to -1. -/
theorem claim9_initial_table :
    initReadings.getD 0 (-1) = -1
    ∧ initReadings.getD 1 (-1) = 0
    ∧ 0 ≤ initReadings.getD 1 (-1)
    ∧ ¬(∀ i, i < 10 → initReadings.getD i (-1) = -1) := by decide

/-- Claim C10, counterexample: the well-formed peer frame `"~~~12,5---"`
parses to swarmID 12, outside `[0, 9]`, and the table update takes the
out-of-bounds error branch. -/
theorem claim10_cex :
    scanf_dd "12,5".data = (some 12, some 5)
    ∧ isPeerFrame "~~~12,5---" = true
    ∧ processPacket initState 1000 "~~~12,5---" 0 0 = none := by decide

/-- Claim C10 as amended: the receiver performs no bounds check, so for a
peer frame the table update avoids the out-of-bounds branch exactly when the
value used as index lies in `[0, 10)`. -/
theorem claim10_amended_thm (s : NodeState) (now : Nat) (pkt : String) (j1 j2 : Int)
    (hpeer : isPeerFrame pkt = true) :
    (processPacket s now pkt j1 j2).isSome = true ↔
      0 ≤ sidOf pkt j1 ∧ sidOf pkt j1 < 10 := by
  have hr : isRPiFrame pkt = false := not_isRPiFrame_of_peer pkt hpeer
  unfold processPacket setReading sidOf
  simp only [hpeer, hr, if_true, Bool.false_eq_true, if_false]
  by_cases hb : 0 ≤ ((scanf_dd (payloadBetween pkt ESP_startBit ESP_endBit)).1).getD j1
      ∧ ((scanf_dd (payloadBetween pkt ESP_startBit ESP_endBit)).1).getD j1 < 10
  · simp [hb]
  · simp [hb]

/-- Witness for claim C10 as amended, at the frame `"~~~2,300---"`. -/
theorem claim10_amended_thm_witness :
    (processPacket initState 1000 "~~~2,300---" 0 0).isSome = true ↔
      0 ≤ sidOf "~~~2,300---" 0 ∧ sidOf "~~~2,300---" 0 < 10 :=
  claim10_amended_thm initState 1000 "~~~2,300---" 0 0 (by decide)

end ESPCode
